import Mathlib

/-!
Verification of the voice-media-control listening pipeline.

Texts are modelled as `List Char`; the Python string operations used by
`src/commands.py` (`lower`, `strip`, `in`, `replace(old, "")`) are embedded
as executable functions on character lists.
-/

set_option maxRecDepth 4000

/-- Python `str.lower`, character by character (ASCII, which is all the
configuration and recognizer texts use). -/
def pyLower (s : List Char) : List Char := s.map Char.toLower

/-- Python `str.strip`: drop whitespace from both ends. -/
def pyStrip (s : List Char) : List Char :=
  ((s.dropWhile Char.isWhitespace).reverse.dropWhile Char.isWhitespace).reverse

/-- Whether `p` is a (contiguous) leading segment of `s` (Python `startswith`). -/
def listIsPrefix : List Char → List Char → Bool
  | [], _ => true
  | _ :: _, [] => false
  | p :: ps, c :: cs => p = c && listIsPrefix ps cs

/-- Python `needle in haystack`: contiguous substring containment. -/
def pyContains : List Char → List Char → Bool
  | needle, [] => needle.isEmpty
  | needle, c :: t => listIsPrefix needle (c :: t) || pyContains needle t

/-- One left-to-right scan of Python `s.replace(old, "")`: at each position,
if `old` starts there it is deleted and the scan resumes after it, otherwise
the character is kept.  The fuel argument bounds the scan; `s.length` steps
always suffice because every step consumes at least one character. -/
def removeAllFuel : Nat → List Char → List Char → List Char
  | 0, _, s => s
  | _ + 1, _, [] => []
  | fuel + 1, old, c :: t =>
    if listIsPrefix old (c :: t) then removeAllFuel fuel old ((c :: t).drop old.length)
    else c :: removeAllFuel fuel old t

/-- Python `s.replace(old, "")` (with the empty pattern it is the identity,
as in Python when the replacement is also empty). -/
def pyRemoveAll (old s : List Char) : List Char :=
  if old.isEmpty then s else removeAllFuel s.length old s

/-- Removing only the FIRST occurrence of `old` from `s` — this is what the
spec sentence for wake-word stripping describes (`remove the first
occurrence`), kept as a separate definition to compare with the code. -/
def pyRemoveFirst (old : List Char) : List Char → List Char
  | [] => []
  | c :: t =>
    if listIsPrefix old (c :: t) then (c :: t).drop old.length
    else c :: pyRemoveFirst old t

/-- The configuration dictionary as read by `match_command` via `.get` with
defaults: `wake_word_enabled` defaults to true, `wake_word` to "hey music",
`commands` to the empty mapping.  `commands` is a Python dict, which
preserves insertion order, hence a list of (action, triggers) pairs. -/
structure Config where
  wake_word_enabled : Bool := true
  wake_word : List Char := "hey music".toList
  commands : List (String × List (List Char)) := []
deriving DecidableEq

/-- The inner `for trigger in triggers` loop of `match_command`: true iff
some trigger, lowercased, is a substring of the text. -/
def trigger_matches : List (List Char) → List Char → Bool
  | [], _ => false
  | tr :: rest, text =>
    if pyContains (pyLower tr) text then true else trigger_matches rest text

/-- The `for action, triggers in commands.items()` loop of `match_command`:
the first action (in declaration order) one of whose triggers matches. -/
def findCommand : List (String × List (List Char)) → List Char → Option String
  | [], _ => none
  | (action, triggers) :: rest, text =>
    if trigger_matches triggers text then some action else findCommand rest text

/-- The normalization and wake-word gate of `match_command`
(src/commands.py lines 45-56): lowercase and strip; empty text fails the
gate; with the wake word enabled, text not containing the (lowercased) wake
word fails the gate, and otherwise every occurrence of the wake word is
removed (`str.replace`) and the result stripped again. -/
def gateText (text : List Char) (cfg : Config) : Option (List Char) :=
  let t := pyStrip (pyLower text)
  if t.isEmpty then none
  else if cfg.wake_word_enabled then
    let ww := pyLower cfg.wake_word
    if pyContains ww t then some (pyStrip (pyRemoveAll ww t)) else none
  else some t

/-- The function `match_command(text, config)` from src/commands.py. -/
def match_command (text : List Char) (cfg : Config) : Option String :=
  match gateText text cfg with
  | none => none
  | some t => findCommand cfg.commands t

/-- The matcher as the SPEC words it: the wake word is stripped by removing
only its FIRST occurrence.  Used solely to compare with `match_command`. -/
def match_command_spec_first (text : List Char) (cfg : Config) : Option String :=
  let t := pyStrip (pyLower text)
  if t.isEmpty then none
  else if cfg.wake_word_enabled then
    let ww := pyLower cfg.wake_word
    if pyContains ww t then findCommand cfg.commands (pyStrip (pyRemoveFirst ww t))
    else none
  else findCommand cfg.commands t

example : match_command "hey music next please".toList
    { commands := [("next", ["next".toList])] } = some "next" := by decide

example : match_command "replay the song".toList
    { wake_word_enabled := false, commands := [("play", ["play".toList])] } =
    some "play" := by decide

/-! ## Action Dispatcher (src/commands.py, `MEDIA_KEYS` and `send_media_key`) -/

/-- The three physical media keys `pynput` exposes to this program. -/
inductive MediaKey where
  | media_next
  | media_previous
  | media_play_pause
deriving DecidableEq

/-- A key-down or key-up injection into the OS input layer. -/
inductive KeyEvent where
  | down (k : MediaKey)
  | up (k : MediaKey)
deriving DecidableEq

/-- The `MEDIA_KEYS` dict of src/commands.py. -/
def MEDIA_KEYS : List (String × MediaKey) :=
  [("next", .media_next), ("back", .media_previous),
   ("pause", .media_play_pause), ("play", .media_play_pause)]

/-- Python `dict.get`: the value of the first matching key, if any. -/
def dictGet : List (String × MediaKey) → String → Option MediaKey
  | [], _ => none
  | (k, v) :: rest, a => if a = k then some v else dictGet rest a

/-- The function `send_media_key(action)` from src/commands.py.  The OS input layer is the
parameter `kenv`: `kenv e = true` means injecting event `e` succeeds while
`false` means the call raises.  The returned list is the sequence of events
actually delivered (the `try` block stops at the first raise, which the
`except` swallows, returning `False`).  Unknown actions return `False`
without touching the keyboard. -/
def send_media_key (kenv : KeyEvent → Bool) (action : String) :
    Bool × List KeyEvent :=
  match dictGet MEDIA_KEYS action with
  | some key =>
    if kenv (KeyEvent.down key) then
      if kenv (KeyEvent.up key) then (true, [KeyEvent.down key, KeyEvent.up key])
      else (false, [KeyEvent.down key])
    else (false, [])
  | none => (false, [])

/-! ## Listener Controller (src/listener.py, class `VoiceListener`) -/

/-- Upward callbacks invoked by the listener, recorded as events. -/
inductive Event where
  | onError (msg : String)
  | onStatus (s : String)
  | onCommand (a : String)
deriving DecidableEq

/-- The mutable fields of a `VoiceListener`.  `model`, `recognizer` and
`stream` record whether the corresponding handle is held (`self.model is not
None`, etc.); audio frames are opaque byte buffers, modelled as `Nat`. -/
structure ListenerState where
  config : Config
  model : Bool
  recognizer : Bool
  stream : Bool
  audio_queue : List Nat
  running : Bool
  paused : Bool
  thread : Bool
deriving DecidableEq

/-- The external world `start` interacts with: whether the model directory
exists, whether the Vosk `Model`/`KaldiRecognizer` constructors succeed, and
whether `sd.RawInputStream` opens and starts. -/
structure ListenerEnv where
  model_exists : Bool
  model_load_ok : Bool
  stream_open_ok : Bool

/-- Model loading, `VoiceListener._load_model`: missing model directory or a constructor
raise produce an `on_error` callback and `False`; otherwise the model and
recognizer handles are set and it returns `True`. -/
def load_model (env : ListenerEnv) (s : ListenerState) :
    ListenerState × Bool × List Event :=
  if ¬ env.model_exists then (s, false, [Event.onError "Vosk model not found"])
  else if env.model_load_ok then
    ({ s with model := true, recognizer := true }, true, [])
  else (s, false, [Event.onError "Failed to load Vosk model"])

/-- Startup, `VoiceListener.start`: no-op returning `True` when already running;
otherwise load the model (failure returns `False`), open and start the
capture stream (failure emits `on_error` and returns `False`), then set the
running flag, clear the paused flag, spawn the worker thread and emit the
"listening" status. -/
def start (env : ListenerEnv) (s : ListenerState) :
    ListenerState × Bool × List Event :=
  if s.running then (s, true, [])
  else
    match load_model env s with
    | (s1, false, evs) => (s1, false, evs)
    | (s1, true, evs) =>
      if ¬ env.stream_open_ok then
        (s1, false, evs ++ [Event.onError "Failed to open microphone"])
      else
        ({ s1 with stream := true, running := true, paused := false,
                   thread := true },
         true, evs ++ [Event.onStatus "listening"])

/-- Shutdown, `VoiceListener.stop`: clears the running flag, stops/closes and drops the
stream (a raise from `stream.stop()`/`close()` is caught and only logged, so
the state outcome is the same), joins the worker thread, drops the model and
recognizer handles, and drains the audio queue. -/
def stop (s : ListenerState) : ListenerState :=
  { s with running := false, stream := false, model := false,
           recognizer := false, audio_queue := [] }

/-- Hot reload, `VoiceListener.reload_config`: replaces the configuration snapshot. -/
def reload_config (s : ListenerState) (c : Config) : ListenerState :=
  { s with config := c }

/-- The capture callback `VoiceListener._audio_callback`: unless paused, append the delivered
buffer to the audio queue; while paused the buffer is discarded. -/
def audio_callback (s : ListenerState) (indata : Nat) : ListenerState :=
  if ¬ s.paused then { s with audio_queue := s.audio_queue ++ [indata] }
  else s

/-- Utterance handling, `VoiceListener._handle_recognition`: match the text against the current
configuration snapshot; on a match, dispatch the media key and invoke
`on_command`. -/
def handle_recognition (kenv : KeyEvent → Bool) (s : ListenerState)
    (text : List Char) : List Event × List KeyEvent :=
  match match_command text s.config with
  | some action => ([Event.onCommand action], (send_media_key kenv action).2)
  | none => ([], [])

/-! ## Recognition Worker (src/listener.py, `VoiceListener._process_audio`) -/

/-- The recognition engine as the worker sees it, per frame:
`accept_raises f = some e` means `recognizer.AcceptWaveform(f)` raises `e`;
otherwise `accept_final f` is its boolean return (utterance finalized) and
`result_text f` the `"text"` field of `recognizer.Result()`. -/
structure RecEnv where
  accept_raises : Nat → Option String
  accept_final : Nat → Bool
  result_text : Nat → List Char

/-- Outcome of one pass through the worker's `while self._running` loop. -/
inductive StepResult where
  | exited (s : ListenerState) (evs : List Event)
  | looped (s : ListenerState) (evs : List Event)
  | raised (err : String) (s : ListenerState) (evs : List Event)
deriving DecidableEq

/-- One iteration of `VoiceListener._process_audio`.  If the running flag is
clear the loop (and the thread) exits.  An empty queue is the `queue.Empty`
timeout: `continue`.  A popped frame is discarded when paused.  Otherwise the
frame is fed to the engine; `_process_audio` has no handler around
`AcceptWaveform`, so a raise there escapes the function — `raised` — with no
callback invoked.  A finalized non-empty text goes to `_handle_recognition`. -/
def process_audio_step (renv : RecEnv) (kenv : KeyEvent → Bool)
    (s : ListenerState) : StepResult :=
  if ¬ s.running then .exited s []
  else
    match s.audio_queue with
    | [] => .looped s []
    | data :: rest =>
      let s1 := { s with audio_queue := rest }
      if s1.paused then .looped s1 []
      else
        match renv.accept_raises data with
        | some err => .raised err s1 []
        | none =>
          if renv.accept_final data then
            let text := renv.result_text data
            if ¬ text.isEmpty then
              .looped s1 (handle_recognition kenv s1 text).1
            else .looped s1 []
          else .looped s1 []


/-! ## Theorems -/

/-- Helper: the action loop returns the first declared action with a
matching trigger. -/
theorem findCommand_eq_find (cmds : List (String × List (List Char)))
    (t : List Char) :
    findCommand cmds t =
      (cmds.find? (fun p => trigger_matches p.2 t)).map Prod.fst := by
  induction cmds with
  | nil => simp [findCommand]
  | cons hd tl ih =>
    obtain ⟨a, ts⟩ := hd
    cases hm : trigger_matches ts t <;>
      simp [findCommand, hm, ih, List.find?_cons_of_pos, List.find?_cons_of_neg]

/-- Concrete configuration: wake word "next", one action "next" triggered by
"next". -/
def doubledWakeCfg : Config :=
  { wake_word_enabled := true, wake_word := "next".toList,
    commands := [("next", ["next".toList])] }

/-- C1 counterexample: on the text "next next" with wake word "next",
`match_command` removes BOTH occurrences (Python `str.replace` replaces every
occurrence), leaving nothing to match, while the claimed remove-only-the-first
behaviour would leave "next" and match it. -/
theorem wake_word_first_occurrence_cex :
    match_command "next next".toList doubledWakeCfg = none ∧
    match_command_spec_first "next next".toList doubledWakeCfg = some "next" := by
  decide

/-- C1 (amended): with the wake word enabled and present, `match_command`
searches the text obtained by removing EVERY left-to-right occurrence of the
wake word (Python `str.replace(ww, "")`) and trimming; later occurrences do
not remain. -/
theorem wake_word_strip_removes_all (cfg : Config) (text : List Char)
    (h1 : cfg.wake_word_enabled = true)
    (h2 : (pyStrip (pyLower text)).isEmpty = false)
    (h3 : pyContains (pyLower cfg.wake_word) (pyStrip (pyLower text)) = true) :
    match_command text cfg =
      findCommand cfg.commands
        (pyStrip (pyRemoveAll (pyLower cfg.wake_word)
          (pyStrip (pyLower text)))) := by
  simp [match_command, gateText, h1, h2, h3]

/-- Witness for C1's amended theorem at a concrete doubled-wake-word input. -/
theorem wake_word_strip_removes_all_witness :
    match_command "next next".toList doubledWakeCfg =
      findCommand doubledWakeCfg.commands
        (pyStrip (pyRemoveAll (pyLower doubledWakeCfg.wake_word)
          (pyStrip (pyLower "next next".toList)))) :=
  wake_word_strip_removes_all doubledWakeCfg "next next".toList
    (by decide) (by decide) (by decide)

/-- Concrete configuration for the substring-leniency conjunct of C3. -/
def replayCfg : Config :=
  { wake_word_enabled := false, commands := [("play", ["play".toList])] }

/-- Concrete configuration for the declaration-order conjunct of C3. -/
def tieCfg : Config :=
  { wake_word_enabled := false,
    commands := [("back", ["back".toList]), ("next", ["next".toList])] }

/-- C3: past the wake-word gate, `match_command` returns (the action of) the
first declared action-triggers pair with a matching lowercased substring
trigger, and none when no trigger matches; concretely, trigger "play" matches
inside "replay the song", and with actions declared back-then-next the text
"next and then back" still yields "back". -/
theorem match_first_declared_action (cfg : Config) (text rem : List Char)
    (h : gateText text cfg = some rem) :
    (match_command text cfg =
      (cfg.commands.find? (fun p => trigger_matches p.2 rem)).map Prod.fst) ∧
    match_command "replay the song".toList replayCfg = some "play" ∧
    match_command "next and then back".toList tieCfg = some "back" := by
  refine ⟨?_, by decide, by decide⟩
  rw [match_command, h]
  exact findCommand_eq_find _ _

/-- Witness for C3 at a concrete gated input. -/
theorem match_first_declared_action_witness :
    match_command "replay the song".toList replayCfg =
      (replayCfg.commands.find?
        (fun p => trigger_matches p.2 "replay the song".toList)).map Prod.fst :=
  (match_first_declared_action replayCfg "replay the song".toList
    "replay the song".toList (by decide)).1

/-- C4: with the wake word enabled and absent from the normalized text,
`match_command` returns no action; likewise when the text is empty after
lowercasing and trimming. -/
theorem gate_blocks_match (cfg : Config) (text : List Char)
    (h : (cfg.wake_word_enabled = true ∧
          pyContains (pyLower cfg.wake_word) (pyStrip (pyLower text)) = false) ∨
         (pyStrip (pyLower text)).isEmpty = true) :
    match_command text cfg = none := by
  rcases h with ⟨h1, h2⟩ | h
  · by_cases he : (pyStrip (pyLower text)).isEmpty
    · simp [match_command, gateText, he]
    · simp [match_command, gateText, he, h1, h2]
  · simp [match_command, gateText, h]

/-- Witness for C4: wake word "hey music" absent from "next please". -/
theorem gate_blocks_match_witness :
    match_command "next please".toList
      { commands := [("next", ["next".toList])] } = none :=
  gate_blocks_match { commands := [("next", ["next".toList])] }
    "next please".toList (Or.inl ⟨by decide, by decide⟩)

/-- C5: the dispatcher maps "next" to the next-track key, "back" to the
previous-track key, and both "pause" and "play" to the single play/pause
toggle; for a known action it injects key-down then key-up, and when either
injection call fails it returns false (it never raises: `send_media_key` is
total). -/
theorem dispatch_media_keys :
    dictGet MEDIA_KEYS "next" = some MediaKey.media_next ∧
    dictGet MEDIA_KEYS "back" = some MediaKey.media_previous ∧
    dictGet MEDIA_KEYS "pause" = some MediaKey.media_play_pause ∧
    dictGet MEDIA_KEYS "play" = some MediaKey.media_play_pause ∧
    (∀ (kenv : KeyEvent → Bool) (action : String) (key : MediaKey),
      dictGet MEDIA_KEYS action = some key →
      (kenv (KeyEvent.down key) = true → kenv (KeyEvent.up key) = true →
        send_media_key kenv action =
          (true, [KeyEvent.down key, KeyEvent.up key])) ∧
      ((kenv (KeyEvent.down key) = false ∨ kenv (KeyEvent.up key) = false) →
        (send_media_key kenv action).1 = false)) := by
  refine ⟨by decide, by decide, by decide, by decide, ?_⟩
  intro kenv action key hk
  constructor
  · intro hd hu
    simp [send_media_key, hk, hd, hu]
  · rintro (hf | hf) <;>
      cases hd : kenv (KeyEvent.down key) <;>
      cases hu : kenv (KeyEvent.up key) <;>
      simp_all [send_media_key, hk]

/-- Witness for C5 on the "pause" action with an all-succeeding input layer. -/
theorem dispatch_media_keys_witness :
    send_media_key (fun _ => true) "pause" =
      (true, [KeyEvent.down MediaKey.media_play_pause,
              KeyEvent.up MediaKey.media_play_pause]) :=
  (dispatch_media_keys.2.2.2.2 (fun _ => true) "pause"
    MediaKey.media_play_pause (by decide)).1 (by decide) (by decide)

/-- C6: from a non-running listener, a failed `start` (model missing, model
load raising, or microphone open failing) leaves the running flag false and
the worker-thread field unchanged, emits an `on_error` callback, emits no
"listening" status, and returns false; a successful `start` sets the running
flag, spawns the worker thread, emits the "listening" status and returns
true. -/
theorem start_state_machine (env : ListenerEnv) (s : ListenerState)
    (h : s.running = false) :
    ((start env s).2.1 = false →
      (start env s).1.running = false ∧
      (start env s).1.thread = s.thread ∧
      (∃ m, Event.onError m ∈ (start env s).2.2) ∧
      Event.onStatus "listening" ∉ (start env s).2.2) ∧
    ((start env s).2.1 = true →
      (start env s).1.running = true ∧
      (start env s).1.thread = true ∧
      Event.onStatus "listening" ∈ (start env s).2.2) := by
  obtain ⟨me, ml, so⟩ := env
  cases me <;> cases ml <;> cases so <;>
    simp [start, load_model, h]

/-- An idle (never started) listener state. -/
def idleState : ListenerState :=
  { config := {}, model := false, recognizer := false, stream := false,
    audio_queue := [], running := false, paused := false, thread := false }

/-- Witness for C6: a fully successful start from the idle state. -/
theorem start_state_machine_witness :
    (start ⟨true, true, true⟩ idleState).1.running = true ∧
    (start ⟨true, true, true⟩ idleState).1.thread = true ∧
    Event.onStatus "listening" ∈ (start ⟨true, true, true⟩ idleState).2.2 :=
  (start_state_machine ⟨true, true, true⟩ idleState rfl).2 (by decide)

/-- C7: after `stop` the running flag is clear, the stream, model and
recognizer handles are released, and the audio queue is empty; a second
`stop` is safe and changes nothing further. -/
theorem stop_stopped_state (s : ListenerState) :
    (stop s).running = false ∧ (stop s).stream = false ∧
    (stop s).model = false ∧ (stop s).recognizer = false ∧
    (stop s).audio_queue = [] ∧ stop (stop s) = stop s := by
  simp [stop]

/-- C8: `reload_config` replaces only the configuration snapshot — the
running and paused flags, the stream, model, recognizer and thread handles
and the audio queue are untouched — and the next finalized utterance is
matched against the new configuration. -/
theorem reload_config_frame (s : ListenerState) (c : Config) :
    (reload_config s c).running = s.running ∧
    (reload_config s c).paused = s.paused ∧
    (reload_config s c).stream = s.stream ∧
    (reload_config s c).model = s.model ∧
    (reload_config s c).recognizer = s.recognizer ∧
    (reload_config s c).thread = s.thread ∧
    (reload_config s c).audio_queue = s.audio_queue ∧
    (reload_config s c).config = c ∧
    (∀ (kenv : KeyEvent → Bool) (text : List Char),
      handle_recognition kenv (reload_config s c) text =
        (match_command text c).elim ([], [])
          (fun a => ([Event.onCommand a], (send_media_key kenv a).2))) := by
  refine ⟨rfl, rfl, rfl, rfl, rfl, rfl, rfl, rfl, ?_⟩
  intro kenv text
  cases hm : match_command text c <;>
    simp [handle_recognition, reload_config, hm]

/-- C9: while the paused flag is set the capture callback discards the
delivered buffer, leaving the listener (and so the audio queue) unchanged;
and a worker iteration that pops a frame while paused discards it without
feeding the engine and without emitting any callback. -/
theorem paused_drops_frames (renv : RecEnv) (kenv : KeyEvent → Bool)
    (s : ListenerState) (d data : Nat) (rest : List Nat)
    (hp : s.paused = true) :
    audio_callback s d = s ∧
    (s.running = true → s.audio_queue = data :: rest →
      process_audio_step renv kenv s =
        .looped { s with audio_queue := rest } []) := by
  constructor
  · simp [audio_callback, hp]
  · intro hr hq
    simp [process_audio_step, hr, hq, hp]

/-- A paused mid-session listener state holding one queued frame. -/
def pausedState : ListenerState :=
  { config := {}, model := true, recognizer := true, stream := true,
    audio_queue := [5], running := true, paused := true, thread := true }

/-- Witness for C9 on a concrete paused state. -/
theorem paused_drops_frames_witness :
    audio_callback pausedState 9 = pausedState ∧
    process_audio_step ⟨fun _ => none, fun _ => true, fun _ => []⟩
        (fun _ => true) pausedState =
      .looped { pausedState with audio_queue := [] } [] := by
  have h := paused_drops_frames ⟨fun _ => none, fun _ => true, fun _ => []⟩
    (fun _ => true) pausedState 9 5 [] rfl
  exact ⟨h.1, h.2 rfl rfl⟩

/-- An engine whose feed call raises on every frame. -/
def errRecEnv : RecEnv :=
  { accept_raises := fun _ => some "recognizer failure",
    accept_final := fun _ => false,
    result_text := fun _ => [] }

/-- A running listener with one queued frame. -/
def busyState : ListenerState :=
  { config := {}, model := true, recognizer := true, stream := true,
    audio_queue := [7], running := true, paused := false, thread := true }

/-- C2: `_process_audio` has no exception handler around
`recognizer.AcceptWaveform`, so when the engine raises, the exception escapes
the worker function (killing the thread) with NO callback emitted — in
particular `on_error` is never invoked, contradicting the claim. -/
theorem worker_engine_error_escapes :
    process_audio_step errRecEnv (fun _ => true) busyState =
      .raised "recognizer failure" { busyState with audio_queue := [] } [] := by
  decide

/-- Configuration whose `commands` mapping holds an action name outside the
closed set `{next, back, pause, play}`. -/
def volumeCfg : Config :=
  { wake_word_enabled := false, commands := [("volume", ["louder".toList])] }

/-- C10: an action name absent from `MEDIA_KEYS` makes `send_media_key`
return false with no key event; every name outside {next, back, pause, play}
is absent; and `match_command` happily returns such a name when the
configuration maps it, so it is silently dropped at dispatch. -/
theorem unknown_action_dropped :
    (∀ (kenv : KeyEvent → Bool) (action : String),
      dictGet MEDIA_KEYS action = none →
      send_media_key kenv action = (false, [])) ∧
    (∀ action : String, action ∉ ["next", "back", "pause", "play"] →
      dictGet MEDIA_KEYS action = none) ∧
    match_command "turn it louder".toList volumeCfg = some "volume" ∧
    (∀ kenv : KeyEvent → Bool, send_media_key kenv "volume" = (false, [])) := by
  have hv : dictGet MEDIA_KEYS "volume" = none := by decide
  refine ⟨?_, ?_, by decide, fun kenv => by simp [send_media_key, hv]⟩
  · intro kenv action h
    simp [send_media_key, h]
  · intro action h
    simp only [List.mem_cons, List.not_mem_nil, or_false, not_or] at h
    obtain ⟨h1, h2, h3, h4⟩ := h
    simp [dictGet, MEDIA_KEYS, h1, h2, h3, h4]

/-- Witness for C10: the out-of-set action "volume" is dropped. -/
theorem unknown_action_dropped_witness :
    send_media_key (fun _ => false) "volume" = (false, []) :=
  unknown_action_dropped.1 (fun _ => false) "volume" (by decide)
